import Mathlib

set_option maxHeartbeats 1000000
set_option maxRecDepth 4000

/-!
Verification development for the upipe TS-split demultiplexer
(src/lib/upipe-ts/upipe_ts_split.c) and the dvbcsa descrambling transform
(src/lib/upipe-dvbcsa/upipe_dvbcsa_decrypt.c).

Packets are modelled as lists of byte values (natural numbers; bytes are
below 256 where that matters).  Buffer helpers of the upipe core
(uref_block_peek, uref_block_extract, ulist, ustring_to_dvbcsa_cw) are not
part of the analysed sources; where their behaviour is load-bearing it is
modelled from the spec, as marked in the doc comments.
-/

/-- Field accessor from the TS header layout (bitstream/mpeg/ts.h,
spec section 6): the 13-bit PID spans the low 5 bits of byte 1 and all of
byte 2. -/
def ts_get_pid (p : List Nat) : Nat :=
  ((p.getD 1 0 &&& 0x1f) <<< 8) ||| p.getD 2 0

/-- Field accessor: transport_scrambling_control is the top 2 bits of
byte 3. -/
def ts_get_scrambling (p : List Nat) : Nat :=
  (p.getD 3 0 &&& 0xc0) >>> 6

/-- Field accessor: the has-payload bit of the adaptation_field_control in
byte 3. -/
def ts_has_payload (p : List Nat) : Bool :=
  (p.getD 3 0 &&& 0x10) != 0

/-- Field accessor: the has-adaptation-field bit of the
adaptation_field_control in byte 3. -/
def ts_has_adaptation (p : List Nat) : Bool :=
  (p.getD 3 0 &&& 0x20) != 0

/-- Field mutator (bitstream/mpeg/ts.h): clear the top 2 bits of byte 3 and
or-in the new scrambling value shifted left by 6. -/
def ts_set_scrambling (p : List Nat) (v : Nat) : List Nat :=
  p.set 3 ((p.getD 3 0 &&& 0x3f) ||| (v <<< 6))

/-- Opaque cipher key state; dvbcsa_key_set stores the decoded control word,
so the key is represented by its control-word bytes. -/
abbrev DvbcsaKey := List Nat

/-- Result of the decrypt pipe input handler on one packet: the packet is
forwarded downstream, dropped with an error log, or dropped with a
warning. -/
inductive DecResult where
  | output (p : List Nat)
  | droppedErr
  | droppedWarn
deriving DecidableEq

/-- Embedding of upipe_dvbcsa_dec_input (upipe_dvbcsa_decrypt.c, lines
133-203).  The external cipher primitive dvbcsa_decrypt is a parameter, and
the PID whitelist membership test upipe_dvbcsa_common_check_pid is a
parameter (both are external collaborators per the spec).  Modelled from the
spec where the upipe core buffer helpers are concerned: uref_block_peek of
the 4 header bytes fails exactly when fewer than 4 bytes are available, and
uref_block_extract of the adaptation length byte fails exactly when fewer
than 5 bytes are available (spec section 4.1, ShortBuffer); ubuf_block_copy
and ubuf_block_write expose the same byte content (allocation failures are
not modelled). -/
def upipe_dvbcsa_dec_input (cipher : DvbcsaKey → List Nat → List Nat)
    (checkPid : Nat → Bool) (key : Option DvbcsaKey) (p : List Nat) :
    DecResult :=
  match key with
  | none => DecResult.output p
  | some k =>
    if p.length < 4 then DecResult.droppedErr
    else if ts_get_scrambling p ≠ 2 ∨ ts_has_payload p = false ∨
        checkPid (ts_get_pid p) = false then
      DecResult.output p
    else if ts_has_adaptation p then
      if p.length < 5 then DecResult.droppedErr
      else if 183 ≤ p.getD 4 0 then DecResult.droppedWarn
      else
        DecResult.output ((ts_set_scrambling p 0).take (4 + p.getD 4 0 + 1) ++
          cipher k ((ts_set_scrambling p 0).drop (4 + p.getD 4 0 + 1)))
    else
      DecResult.output ((ts_set_scrambling p 0).take 4 ++
        cipher k ((ts_set_scrambling p 0).drop 4))

/-- Payload start offset in the words of the spec: 4 when no adaptation
field is present, 4 + 1 + adaptation_field_length when one is present. -/
def payloadStart (p : List Nat) : Nat :=
  if ts_has_adaptation p then 4 + 1 + p.getD 4 0 else 4

/-- Result codes of a control command (UBASE_ERR_NONE and
UBASE_ERR_INVALID). -/
inductive UbaseErr where
  | ok
  | invalid
deriving DecidableEq

/-- Modelled from the spec: value of one hexadecimal character. -/
def hexVal (c : Char) : Option Nat :=
  if '0' ≤ c ∧ c ≤ '9' then some (c.toNat - '0'.toNat)
  else if 'a' ≤ c ∧ c ≤ 'f' then some (c.toNat - 'a'.toNat + 10)
  else if 'A' ≤ c ∧ c ≤ 'F' then some (c.toNat - 'A'.toNat + 10)
  else none

/-- Modelled from the spec: decode consecutive pairs of hexadecimal
characters into bytes; fails on a non-hex character or an odd count. -/
def hexPairs : List Char → Option (List Nat)
  | [] => some []
  | [_] => none
  | c1 :: c2 :: rest =>
    match hexVal c1, hexVal c2, hexPairs rest with
    | some hi, some lo, some bs => some (((hi <<< 4) ||| lo) :: bs)
    | _, _, _ => none

/-- Modelled from the spec: ustring_to_dvbcsa_cw (a upipe-dvbcsa helper
declared outside the analysed sources) matches a control word of exactly 16
hexadecimal characters (8 bytes) at the start of the text, returning the
matched length and the decoded bytes; it matches nothing otherwise. -/
def ustring_to_dvbcsa_cw (s : List Char) : Option (Nat × List Nat) :=
  if 16 ≤ s.length then
    match hexPairs (s.take 16) with
    | some bs => some (16, bs)
    | none => none
  else none

/-- Embedding of upipe_dvbcsa_dec_set_key (upipe_dvbcsa_decrypt.c, lines
227-247).  The previous key is freed unconditionally before anything else,
so the result never depends on the prior stored key.  A missing text clears
the key and succeeds; otherwise the text must match a control word exactly
(no trailing characters) or the command fails with UBASE_ERR_INVALID,
leaving no key stored. -/
def upipe_dvbcsa_dec_set_key (key : Option DvbcsaKey)
    (text : Option (List Char)) : Option DvbcsaKey × UbaseErr :=
  match text with
  | none => (none, UbaseErr.ok)
  | some s =>
    match ustring_to_dvbcsa_cw s with
    | none => (none, UbaseErr.invalid)
    | some (len, cw) =>
      if s.length ≠ len then (none, UbaseErr.invalid)
      else (some cw, UbaseErr.ok)

/-- One slot of the PID table of the split pipe: the ordered list of output
subscriber handles and the edge-detection flag.  Modelled from the spec
where the upipe core list type ulist is concerned: ulist_add appends at the
tail, so the list order is registration order. -/
structure TsSplitPid where
  outputs : List Nat
  set : Bool
deriving DecidableEq

/-- State of a ts_split pipe: the flow-definition-accepted flag and the
8192-entry PID table (modelled as a total function on PID values). -/
structure TsSplit where
  flow_def_ok : Bool
  pids : Nat → TsSplitPid

/-- Events thrown to the probe by upipe_ts_split_pid_check. -/
inductive SplitEvent where
  | set_pid (pid : Nat)
  | unset_pid (pid : Nat)
deriving DecidableEq

/-- Update one slot of the PID table. -/
def updatePidSlot (st : TsSplit) (pid : Nat) (f : TsSplitPid → TsSplitPid) :
    TsSplit :=
  { st with pids := fun q => if q = pid then f (st.pids q) else st.pids q }

/-- Embedding of upipe_ts_split_pid_check (upipe_ts_split.c, lines
359-376): flip the set flag to match the emptiness of the slot and throw
the corresponding event on each transition. -/
def upipe_ts_split_pid_check (st : TsSplit) (pid : Nat) :
    TsSplit × List SplitEvent :=
  if (st.pids pid).outputs.isEmpty = false then
    if (st.pids pid).set = false then
      (updatePidSlot st pid (fun s => { s with set := true }),
        [SplitEvent.set_pid pid])
    else (st, [])
  else
    if (st.pids pid).set = true then
      (updatePidSlot st pid (fun s => { s with set := false }),
        [SplitEvent.unset_pid pid])
    else (st, [])

/-- Embedding of upipe_ts_split_pid_set (upipe_ts_split.c, lines 384-392):
append the output to the slot list, then re-check the slot. -/
def upipe_ts_split_pid_set (st : TsSplit) (pid : Nat) (handle : Nat) :
    TsSplit × List SplitEvent :=
  upipe_ts_split_pid_check
    (updatePidSlot st pid
      (fun s => { s with outputs := s.outputs ++ [handle] })) pid

/-- Embedding of upipe_ts_split_pid_unset (upipe_ts_split.c, lines
400-412): delete every occurrence of the output from the slot list
(ulist_delete_foreach deletes all matches), then re-check the slot. -/
def upipe_ts_split_pid_unset (st : TsSplit) (pid : Nat) (handle : Nat) :
    TsSplit × List SplitEvent :=
  upipe_ts_split_pid_check
    (updatePidSlot st pid
      (fun s => { s with outputs := s.outputs.filter (fun h => h != handle) }))
    pid

/-- One subscribe or unsubscribe operation on a PID slot. -/
inductive PidOp where
  | sub (handle : Nat)
  | unsub (handle : Nat)

/-- One registry operation step: subscribe runs upipe_ts_split_pid_set,
unsubscribe runs upipe_ts_split_pid_unset. -/
def pid_step (st : TsSplit) (pid : Nat) (op : PidOp) :
    TsSplit × List SplitEvent :=
  match op with
  | PidOp.sub h => upipe_ts_split_pid_set st pid h
  | PidOp.unsub h => upipe_ts_split_pid_unset st pid h

/-- A packet forwarded to one subscriber: either the original buffer or an
independent duplicate of its bytes. -/
inductive Fwd where
  | orig (bytes : List Nat)
  | dup (bytes : List Nat)
deriving DecidableEq

/-- Embedding of the fan-out loop of upipe_ts_split_work (upipe_ts_split.c,
lines 437-459).  The subscriber whose chain link has no successor (the last
one) receives the original buffer; every earlier subscriber receives a
duplicate made by uref_dup.  The success of each duplication is given by
the allocation oracle dupOk, indexed by the number of duplications
attempted so far; on a failed duplication the original is freed, an
allocation error is thrown, and the loop stops.  Returns the list of
(handle, packet) deliveries in order and whether the error was thrown.
An empty slot delivers nothing (the caller frees the packet). -/
def upipe_ts_split_fanout (dupOk : Nat → Bool) (p : List Nat) :
    List Nat → Nat → List (Nat × Fwd) × Bool
  | [], _ => ([], false)
  | [s], _ => ([(s, Fwd.orig p)], false)
  | s :: s2 :: rest, idx =>
    if dupOk idx then
      let r := upipe_ts_split_fanout dupOk p (s2 :: rest) (idx + 1)
      ((s, Fwd.dup p) :: r.1, r.2)
    else ([], true)

/-- Result of upipe_ts_split_work on one packet: the header peek failed (an
allocation error is thrown and the packet freed), or the fan-out ran with
the given deliveries and error flag. -/
inductive WorkResult where
  | parseError
  | done (outs : List (Nat × Fwd)) (aerror : Bool)
deriving DecidableEq

/-- Embedding of upipe_ts_split_work (upipe_ts_split.c, lines 420-460).
Modelled from the spec where uref_block_peek is concerned: peeking the
4-byte header fails exactly when the packet has fewer than 4 bytes.  The
registry is only read, never written, so the state is returned unchanged. -/
def upipe_ts_split_work (dupOk : Nat → Bool) (st : TsSplit) (p : List Nat) :
    TsSplit × WorkResult :=
  if p.length < 4 then (st, WorkResult.parseError)
  else
    let r := upipe_ts_split_fanout dupOk p (st.pids (ts_get_pid p)).outputs 0
    (st, WorkResult.done r.1 r.2)

/-- Fan-out described in the words of the spec: every subscriber except the
last receives a duplicate of the packet bytes, and the last subscriber
receives the original buffer; nothing is delivered for an empty slot. -/
def fanout_spec (subs : List Nat) (p : List Nat) : List (Nat × Fwd) :=
  subs.dropLast.map (fun s => (s, Fwd.dup p)) ++
    (match subs.getLast? with
     | none => []
     | some s => [(s, Fwd.orig p)])

/-- Result of upipe_ts_split_output_set_flow_def: the new registry state,
the flow definition stored on the output subpipe (none, or some pid when a
pid attribute is present), the boolean return value, and the events thrown. -/
structure SetFlowDefResult where
  st : TsSplit
  stored : Option (Option Nat)
  ok : Bool
  events : List SplitEvent

/-- Embedding of upipe_ts_split_output_set_flow_def (upipe_ts_split.c, lines
181-208).  The subpipe state is its stored flow definition: none, or
some fd where fd records whether a pid attribute is present and its value.
The code first deregisters the output from the slot of its previous flow
definition (when one with a pid is stored) and clears the stored
definition, and only then validates the new definition: a missing pid
attribute or a pid of at least 8192 makes it return false.  Otherwise the
definition is stored and the output is registered on the new slot
(duplication of the flow definition is assumed to succeed). -/
def upipe_ts_split_output_set_flow_def (st : TsSplit) (handle : Nat)
    (stored : Option (Option Nat)) (fd : Option Nat) : SetFlowDefResult :=
  let r1 : TsSplit × List SplitEvent :=
    match stored with
    | some (some oldPid) => upipe_ts_split_pid_unset st oldPid handle
    | _ => (st, [])
  match fd with
  | none => { st := r1.1, stored := none, ok := false, events := r1.2 }
  | some pid =>
    if 8192 ≤ pid then
      { st := r1.1, stored := none, ok := false, events := r1.2 }
    else
      let r2 := upipe_ts_split_pid_set r1.1 pid handle
      { st := r2.1, stored := some (some pid), ok := true,
        events := r1.2 ++ r2.2 }

/-- Expected input flow definition of the split pipe, the characters of
the string block.mpegts. (EXPECTED_FLOW_DEF in upipe_ts_split.c). -/
def EXPECTED_FLOW_DEF : List Char :=
  ['b', 'l', 'o', 'c', 'k', '.', 'm', 'p', 'e', 'g', 't', 's', '.']

/-- Input to the split pipe: a flow definition packet carrying a definition
string, or a data packet whose buffer may be missing. -/
inductive TsInput where
  | flowDef (d : List Char)
  | data (buf : Option (List Nat))

/-- Result of upipe_ts_split_input on one input. -/
inductive InputResult where
  | flowDefError
  | flowDefAccepted
  | droppedNoUbuf
  | worked (r : WorkResult)
deriving DecidableEq

/-- Embedding of upipe_ts_split_input (upipe_ts_split.c, lines 468-499).
A flow definition whose string does not start with EXPECTED_FLOW_DEF is
dropped with a flow definition error and clears the flow_def_ok flag; a
matching one sets the flag.  A data packet is dropped with a flow
definition error while the flag is false, dropped silently when it has no
buffer, and otherwise handed to upipe_ts_split_work.  Modelled from the
spec where ubase_ncmp is concerned: the comparison succeeds exactly when
the expected definition is a prefix of the received string. -/
def upipe_ts_split_input (dupOk : Nat → Bool) (st : TsSplit) (i : TsInput) :
    TsSplit × InputResult :=
  match i with
  | TsInput.flowDef d =>
    if EXPECTED_FLOW_DEF.isPrefixOf d = false then
      ({ st with flow_def_ok := false }, InputResult.flowDefError)
    else
      ({ st with flow_def_ok := true }, InputResult.flowDefAccepted)
  | TsInput.data buf =>
    if st.flow_def_ok = false then (st, InputResult.flowDefError)
    else
      match buf with
      | none => (st, InputResult.droppedNoUbuf)
      | some p =>
        let r := upipe_ts_split_work dupOk st p
        (r.1, InputResult.worked r.2)

/-- A freshly allocated split pipe: flag false, all slots empty and unset
(upipe_ts_split_alloc, upipe_ts_split.c, lines 341-347). -/
def tsSplitInit : TsSplit :=
  { flow_def_ok := false,
    pids := fun _ => { outputs := [], set := false } }

/-- Concrete registry state used by witnesses: output handle 7 registered
on slot 5, flag set accordingly, flow definition accepted. -/
def tsSplitOne : TsSplit :=
  { flow_def_ok := true,
    pids := fun q =>
      if q = 5 then { outputs := [7], set := true }
      else { outputs := [], set := false } }

/-- Concrete registry state used by witnesses: output handles 1, 2 and 3
registered in that order on slot 256, flag set accordingly, flow
definition accepted. -/
def tsSplitThree : TsSplit :=
  { flow_def_ok := true,
    pids := fun q =>
      if q = 256 then { outputs := [1, 2, 3], set := true }
      else { outputs := [], set := false } }

/-- Concrete well-formed TS packet used by witnesses: header bytes 0x47
0x01 0x00 0x90 (PID 0x100, scrambling control 2, payload, no adaptation
field) followed by 184 ascending payload bytes. -/
def packet290 : List Nat :=
  0x47 :: 0x01 :: 0x00 :: 0x90 :: (List.range 184).map (fun i => i % 256)

/-- Concrete well-formed TS packet used by witnesses: like packet290 but
byte 3 is 0xb0 (adaptation field present) and the adaptation field length
byte is 10. -/
def packet2b0 : List Nat :=
  0x47 :: 0x01 :: 0x00 :: 0xb0 :: 10 :: (List.range 183).map (fun i => i % 256)

/-- Concrete invalid packet used by witnesses: adaptation field length byte
183 on the decryption path. -/
def packetBadAf : List Nat :=
  0x47 :: 0x01 :: 0x00 :: 0xb0 :: 183 :: (List.range 183).map (fun i => i % 256)

/-- Concrete cipher used by witnesses: add the first key byte to every
payload byte, modulo 256. -/
def cipherW : DvbcsaKey → List Nat → List Nat :=
  fun k l => l.map (fun b => (b + k.getD 0 0) % 256)

/-- Concrete whitelist used by witnesses: exactly PID 0x100. -/
def checkPidW : Nat → Bool :=
  fun q => q == 0x100

/-- Concrete control word text 0011223344556677 used by witnesses. -/
def cwText : List Char :=
  ['0', '0', '1', '1', '2', '2', '3', '3', '4', '4', '5', '5', '6', '6',
   '7', '7']

theorem ts_set_scrambling_zero (p : List Nat) :
    ts_set_scrambling p 0 = p.set 3 (p.getD 3 0 &&& 0x3f) := by
  simp [ts_set_scrambling]

-- Shared facts about the buffer produced on the decryption path: the
-- scrambling bits read back as zero, the first hs bytes are the input bytes
-- with byte 3 masked, and the remaining bytes are the cipher output.
theorem dec_payload_props (cipher : DvbcsaKey → List Nat → List Nat)
    (k : DvbcsaKey) (p : List Nat) (hs : Nat) (h3 : 3 < hs)
    (hlen : hs ≤ p.length) :
    ts_get_scrambling ((ts_set_scrambling p 0).take hs ++
        cipher k ((ts_set_scrambling p 0).drop hs)) = 0 ∧
    ((ts_set_scrambling p 0).take hs ++
        cipher k ((ts_set_scrambling p 0).drop hs)).take hs
      = (p.take hs).set 3 (p.getD 3 0 &&& 0x3f) ∧
    ((ts_set_scrambling p 0).take hs ++
        cipher k ((ts_set_scrambling p 0).drop hs)).drop hs
      = cipher k (p.drop hs) := by
  have hset := ts_set_scrambling_zero p
  have hlen1 : ((ts_set_scrambling p 0).take hs).length = hs := by
    simp [hset, List.length_take]
    omega
  have htake : ((ts_set_scrambling p 0).take hs ++
      cipher k ((ts_set_scrambling p 0).drop hs)).take hs
        = (ts_set_scrambling p 0).take hs := List.take_left' hlen1
  have hdrop : ((ts_set_scrambling p 0).take hs ++
      cipher k ((ts_set_scrambling p 0).drop hs)).drop hs
        = cipher k ((ts_set_scrambling p 0).drop hs) := List.drop_left' hlen1
  have hdropset : (ts_set_scrambling p 0).drop hs = p.drop hs := by
    rw [hset]
    exact List.drop_set_of_lt _ p h3
  refine ⟨?_, ?_, ?_⟩
  · have h3p : 3 < p.length := lt_of_lt_of_le h3 hlen
    have hb : ((ts_set_scrambling p 0).take hs ++
        cipher k ((ts_set_scrambling p 0).drop hs)).getD 3 0
          = p.getD 3 0 &&& 0x3f := by
      rw [List.getD_eq_getElem?_getD, List.getElem?_append_left (by omega),
        hset, List.getElem?_take]
      rw [if_pos h3]
      rw [List.getElem?_set_self h3p]
      rfl
    rw [ts_get_scrambling, hb]
    have h1 : p.getD 3 0 &&& 0x3f &&& 0xc0 ≤ 0x3f :=
      le_trans Nat.and_le_left Nat.and_le_right
    rw [Nat.shiftRight_eq_div_pow]
    exact Nat.div_eq_of_lt (by omega)
  · rw [htake, hset, List.set_take]
  · rw [hdrop, hdropset]

/-- Claim C1: on the decryption path (scrambling control 2, payload
present, PID whitelisted, key stored) for a well-formed 188-byte packet,
the transform forwards a packet whose scrambling control bits are zero,
whose bytes before the payload start offset equal the input bytes with
only the scrambling bits of byte 3 cleared, and whose bytes from the
payload start offset to the end equal the external cipher output for the
stored key on that range; the payload start offset is 4 without an
adaptation field and 4 + 1 + adaptation_field_length with one. -/
theorem claim_C1_decrypt_path (cipher : DvbcsaKey → List Nat → List Nat)
    (checkPid : Nat → Bool) (k : DvbcsaKey) (p : List Nat)
    (h188 : p.length = 188) (hscr : ts_get_scrambling p = 2)
    (hpay : ts_has_payload p = true) (hwl : checkPid (ts_get_pid p) = true)
    (haf : ts_has_adaptation p = true → p.getD 4 0 < 183) :
    ∃ q, upipe_dvbcsa_dec_input cipher checkPid (some k) p
        = DecResult.output q ∧
      ts_get_scrambling q = 0 ∧
      q.take (payloadStart p)
        = (p.take (payloadStart p)).set 3 (p.getD 3 0 &&& 0x3f) ∧
      q.drop (payloadStart p) = cipher k (p.drop (payloadStart p)) := by
  have hgate : ¬(ts_get_scrambling p ≠ 2 ∨ ts_has_payload p = false ∨
      checkPid (ts_get_pid p) = false) := by
    simp [hscr, hpay, hwl]
  cases hA : ts_has_adaptation p with
  | false =>
    have hps : payloadStart p = 4 := by simp [payloadStart, hA]
    refine ⟨(ts_set_scrambling p 0).take 4 ++
      cipher k ((ts_set_scrambling p 0).drop 4), ?_, ?_⟩
    · rw [upipe_dvbcsa_dec_input]
      rw [if_neg (by omega), if_neg hgate, if_neg (by simp [hA])]
    · rw [hps]
      exact dec_payload_props cipher k p 4 (by omega) (by omega)
  | true =>
    have hafv : p.getD 4 0 < 183 := haf hA
    have hps : payloadStart p = 4 + p.getD 4 0 + 1 := by
      simp [payloadStart, hA]
      omega
    refine ⟨(ts_set_scrambling p 0).take (4 + p.getD 4 0 + 1) ++
      cipher k ((ts_set_scrambling p 0).drop (4 + p.getD 4 0 + 1)), ?_, ?_⟩
    · rw [upipe_dvbcsa_dec_input]
      rw [if_neg (by omega), if_neg hgate, if_pos (by simp [hA]),
        if_neg (by omega), if_neg (by omega)]
    · rw [hps]
      exact dec_payload_props cipher k p (4 + p.getD 4 0 + 1) (by omega)
        (by omega)

/-- Witness for claim C1 at a concrete packet with an adaptation field of
length 10, the concrete cipher cipherW, the concrete whitelist checkPidW
and a concrete key. -/
theorem claim_C1_decrypt_path_witness :
    ∃ q, upipe_dvbcsa_dec_input cipherW checkPidW
        (some [1, 2, 3, 4, 5, 6, 7, 8]) packet2b0 = DecResult.output q ∧
      ts_get_scrambling q = 0 ∧
      q.take (payloadStart packet2b0)
        = (packet2b0.take (payloadStart packet2b0)).set 3
            (packet2b0.getD 3 0 &&& 0x3f) ∧
      q.drop (payloadStart packet2b0)
        = cipherW [1, 2, 3, 4, 5, 6, 7, 8]
            (packet2b0.drop (payloadStart packet2b0)) :=
  claim_C1_decrypt_path cipherW checkPidW [1, 2, 3, 4, 5, 6, 7, 8] packet2b0
    (by decide) (by decide) (by decide) (by decide) (fun _ => by decide)

/-- Claim C3: for every packet of at least 4 bytes, if no key is stored, or
the scrambling control is not 2, or the payload flag is absent, or the PID
is not whitelisted, the transform forwards the packet unmodified. -/
theorem claim_C3_pass_through (cipher : DvbcsaKey → List Nat → List Nat)
    (checkPid : Nat → Bool) (key : Option DvbcsaKey) (p : List Nat)
    (h4 : 4 ≤ p.length)
    (hgate : key = none ∨ ts_get_scrambling p ≠ 2 ∨ ts_has_payload p = false ∨
      checkPid (ts_get_pid p) = false) :
    upipe_dvbcsa_dec_input cipher checkPid key p = DecResult.output p := by
  cases key with
  | none => rfl
  | some k =>
    have hgate2 : ts_get_scrambling p ≠ 2 ∨ ts_has_payload p = false ∨
        checkPid (ts_get_pid p) = false := by
      rcases hgate with h | h
      · exact absurd h (by simp)
      · exact h
    rw [upipe_dvbcsa_dec_input]
    rw [if_neg (by omega), if_pos hgate2]

/-- Witness for claim C3 at a concrete clear packet (scrambling control 0)
with a key stored. -/
theorem claim_C3_pass_through_witness :
    4 ≤ ([0x47, 0x01, 0x00, 0x10] : List Nat).length ∧
    upipe_dvbcsa_dec_input cipherW checkPidW (some [1, 2, 3, 4, 5, 6, 7, 8])
      [0x47, 0x01, 0x00, 0x10] = DecResult.output [0x47, 0x01, 0x00, 0x10] :=
  ⟨by decide,
   claim_C3_pass_through cipherW checkPidW (some [1, 2, 3, 4, 5, 6, 7, 8])
     [0x47, 0x01, 0x00, 0x10] (by decide) (Or.inr (Or.inl (by decide)))⟩

/-- Claim C8: a packet on the decryption path carrying an adaptation field
whose length byte is at least 183 is dropped with a warning, for every
cipher (so the cipher is never invoked) and nothing is forwarded. -/
theorem claim_C8_bad_adaptation (cipher : DvbcsaKey → List Nat → List Nat)
    (checkPid : Nat → Bool) (k : DvbcsaKey) (p : List Nat)
    (h5 : 5 ≤ p.length) (hscr : ts_get_scrambling p = 2)
    (hpay : ts_has_payload p = true) (hwl : checkPid (ts_get_pid p) = true)
    (hada : ts_has_adaptation p = true) (haf : 183 ≤ p.getD 4 0) :
    upipe_dvbcsa_dec_input cipher checkPid (some k) p
      = DecResult.droppedWarn := by
  rw [upipe_dvbcsa_dec_input]
  rw [if_neg (by omega), if_neg (by simp [hscr, hpay, hwl]),
    if_pos (by simp [hada]), if_neg (by omega), if_pos haf]

/-- Witness for claim C8 at a concrete packet with adaptation field length
byte 183. -/
theorem claim_C8_bad_adaptation_witness :
    5 ≤ packetBadAf.length ∧
    ts_get_scrambling packetBadAf = 2 ∧
    183 ≤ packetBadAf.getD 4 0 ∧
    upipe_dvbcsa_dec_input cipherW checkPidW (some [1, 2, 3, 4, 5, 6, 7, 8])
      packetBadAf = DecResult.droppedWarn :=
  ⟨by decide, by decide, by decide,
   claim_C8_bad_adaptation cipherW checkPidW [1, 2, 3, 4, 5, 6, 7, 8]
     packetBadAf (by decide) (by decide) (by decide) (by decide) (by decide)
     (by decide)⟩

/-- Claim C10: with no key stored the transform forwards every packet
unchanged without reading the header, including buffers shorter than 4
bytes; with a key stored, a buffer shorter than 4 bytes is dropped with an
error and nothing is forwarded. -/
theorem claim_C10_short_buffer (cipher : DvbcsaKey → List Nat → List Nat)
    (checkPid : Nat → Bool) (k : DvbcsaKey) (p : List Nat)
    (hshort : p.length < 4) :
    upipe_dvbcsa_dec_input cipher checkPid none p = DecResult.output p ∧
    upipe_dvbcsa_dec_input cipher checkPid (some k) p
      = DecResult.droppedErr := by
  constructor
  · rfl
  · rw [upipe_dvbcsa_dec_input]
    rw [if_pos hshort]

/-- Witness for claim C10 at a concrete 1-byte buffer. -/
theorem claim_C10_short_buffer_witness :
    ([0x47] : List Nat).length < 4 ∧
    upipe_dvbcsa_dec_input cipherW checkPidW none [0x47]
      = DecResult.output [0x47] ∧
    upipe_dvbcsa_dec_input cipherW checkPidW (some [1, 2, 3, 4, 5, 6, 7, 8])
      [0x47] = DecResult.droppedErr :=
  ⟨by decide,
   (claim_C10_short_buffer cipherW checkPidW [1, 2, 3, 4, 5, 6, 7, 8] [0x47]
     (by decide)).1,
   (claim_C10_short_buffer cipherW checkPidW [1, 2, 3, 4, 5, 6, 7, 8] [0x47]
     (by decide)).2⟩

/-- Claim C4: set_key with no text always succeeds and clears the key; a
rejected set_key with text leaves no key stored; and the outcome of
set_key never depends on the previously stored key, so the prior key is
never retained after any set_key call. -/
theorem claim_C4_set_key (key : Option DvbcsaKey) (text : Option (List Char)) :
    upipe_dvbcsa_dec_set_key key none = (none, UbaseErr.ok) ∧
    ((upipe_dvbcsa_dec_set_key key text).2 = UbaseErr.invalid →
      (upipe_dvbcsa_dec_set_key key text).1 = none) ∧
    (∀ key2, upipe_dvbcsa_dec_set_key key2 text
      = upipe_dvbcsa_dec_set_key key text) := by
  refine ⟨rfl, ?_, fun key2 => rfl⟩
  intro hinv
  cases text with
  | none => rfl
  | some s =>
    rw [upipe_dvbcsa_dec_set_key] at hinv ⊢
    cases hcw : ustring_to_dvbcsa_cw s with
    | none => simp [hcw]
    | some v =>
      obtain ⟨len, cw⟩ := v
      rw [hcw] at hinv
      by_cases hlen : s.length = len
      · simp [hlen] at hinv
      · simp [hlen]

/-- Witness for claim C4: clearing succeeds from a stored key, the
too-short text bad is rejected and leaves no key, and the result of the
rejected call is the same from two different prior keys. -/
theorem claim_C4_set_key_witness :
    upipe_dvbcsa_dec_set_key (some [1, 2, 3, 4, 5, 6, 7, 8]) none
      = (none, UbaseErr.ok) ∧
    (upipe_dvbcsa_dec_set_key (some [1, 2, 3, 4, 5, 6, 7, 8])
      (some ['b', 'a', 'd'])).1 = none ∧
    upipe_dvbcsa_dec_set_key (some [9, 9, 9, 9, 9, 9, 9, 9])
        (some ['b', 'a', 'd'])
      = upipe_dvbcsa_dec_set_key (some [1, 2, 3, 4, 5, 6, 7, 8])
        (some ['b', 'a', 'd']) :=
  ⟨(claim_C4_set_key (some [1, 2, 3, 4, 5, 6, 7, 8])
      (some ['b', 'a', 'd'])).1,
   (claim_C4_set_key (some [1, 2, 3, 4, 5, 6, 7, 8])
      (some ['b', 'a', 'd'])).2.1 (by decide),
   (claim_C4_set_key (some [1, 2, 3, 4, 5, 6, 7, 8])
      (some ['b', 'a', 'd'])).2.2 (some [9, 9, 9, 9, 9, 9, 9, 9])⟩

-- Updating a slot changes exactly that slot.
theorem updatePidSlot_pids_self (st : TsSplit) (pid : Nat)
    (f : TsSplitPid → TsSplitPid) :
    (updatePidSlot st pid f).pids pid = f (st.pids pid) := by
  simp [updatePidSlot]

-- Behaviour of upipe_ts_split_pid_check: the slot list is untouched, the
-- flag ends equal to non-emptiness, and an event fires exactly on the
-- corresponding flag transition.
theorem pid_check_spec (st : TsSplit) (pid : Nat) :
    ((upipe_ts_split_pid_check st pid).1.pids pid).outputs
        = (st.pids pid).outputs ∧
    ((upipe_ts_split_pid_check st pid).1.pids pid).set
        = !(st.pids pid).outputs.isEmpty ∧
    (upipe_ts_split_pid_check st pid).2 =
      (if !(st.pids pid).outputs.isEmpty && !(st.pids pid).set then
        [SplitEvent.set_pid pid]
      else if (st.pids pid).outputs.isEmpty && (st.pids pid).set then
        [SplitEvent.unset_pid pid]
      else []) := by
  rw [upipe_ts_split_pid_check]
  cases he : (st.pids pid).outputs.isEmpty <;>
    cases hs : (st.pids pid).set <;>
      simp [updatePidSlot, he, hs]

/-- Claim C5: for every PID slot whose flag currently equals the
non-emptiness of its subscriber list, one subscribe or unsubscribe
operation leaves the flag equal to the non-emptiness of the updated list,
and throws the pid-set event exactly when the list went from empty to
non-empty, the pid-unset event exactly when it went from non-empty to
empty, and no event otherwise. -/
theorem claim_C5_edge_notifications (st : TsSplit) (pid : Nat) (op : PidOp)
    (hinv : (st.pids pid).set = !(st.pids pid).outputs.isEmpty) :
    ((pid_step st pid op).1.pids pid).set
        = !((pid_step st pid op).1.pids pid).outputs.isEmpty ∧
    (pid_step st pid op).2 =
      (if (st.pids pid).outputs.isEmpty
          && !((pid_step st pid op).1.pids pid).outputs.isEmpty then
        [SplitEvent.set_pid pid]
      else if !(st.pids pid).outputs.isEmpty
          && ((pid_step st pid op).1.pids pid).outputs.isEmpty then
        [SplitEvent.unset_pid pid]
      else []) := by
  cases op with
  | sub h =>
    obtain ⟨ho, hf, hev⟩ := pid_check_spec
      (updatePidSlot st pid (fun s => { s with outputs := s.outputs ++ [h] }))
      pid
    simp only [updatePidSlot_pids_self] at ho hf hev
    simp only [pid_step, upipe_ts_split_pid_set]
    refine ⟨by rw [hf, ho], ?_⟩
    rw [hev]
    simp only [ho, hinv]
    cases he : (st.pids pid).outputs.isEmpty <;> simp [he]
  | unsub h =>
    obtain ⟨ho, hf, hev⟩ := pid_check_spec
      (updatePidSlot st pid
        (fun s => { s with outputs := s.outputs.filter (fun x => x != h) }))
      pid
    simp only [updatePidSlot_pids_self] at ho hf hev
    simp only [pid_step, upipe_ts_split_pid_unset]
    refine ⟨by rw [hf, ho], ?_⟩
    rw [hev]
    simp only [ho, hinv]
    cases he : (st.pids pid).outputs.isEmpty <;>
      cases hg : ((st.pids pid).outputs.filter (fun x => x != h)).isEmpty <;>
        simp [he, hg]

/-- Witness for claim C5: subscribing a second output 9 to slot 5 of the
concrete state tsSplitOne (which already holds output 7) keeps the flag
true and throws no event. -/
theorem claim_C5_edge_notifications_witness :
    (tsSplitOne.pids 5).set = !(tsSplitOne.pids 5).outputs.isEmpty ∧
    ((pid_step tsSplitOne 5 (PidOp.sub 9)).1.pids 5).set
        = !((pid_step tsSplitOne 5 (PidOp.sub 9)).1.pids 5).outputs.isEmpty ∧
    (pid_step tsSplitOne 5 (PidOp.sub 9)).2 =
      (if (tsSplitOne.pids 5).outputs.isEmpty
          && !((pid_step tsSplitOne 5 (PidOp.sub 9)).1.pids 5).outputs.isEmpty
        then [SplitEvent.set_pid 5]
      else if !(tsSplitOne.pids 5).outputs.isEmpty
          && ((pid_step tsSplitOne 5 (PidOp.sub 9)).1.pids 5).outputs.isEmpty
        then [SplitEvent.unset_pid 5]
      else []) :=
  ⟨by decide,
   (claim_C5_edge_notifications tsSplitOne 5 (PidOp.sub 9) (by decide)).1,
   (claim_C5_edge_notifications tsSplitOne 5 (PidOp.sub 9) (by decide)).2⟩

-- The fan-out with an always-succeeding allocator delivers as described by
-- the spec-side fanout_spec, with no error.
theorem fanout_all_dup_ok (p : List Nat) (subs : List Nat) :
    ∀ idx, upipe_ts_split_fanout (fun _ => true) p subs idx
      = (fanout_spec subs p, false) := by
  induction subs with
  | nil => intro idx; rfl
  | cons s rest ih =>
    intro idx
    cases rest with
    | nil => rfl
    | cons s2 rest2 =>
      have ihx := ih (idx + 1)
      rw [upipe_ts_split_fanout]
      simp only [if_pos]
      rw [ihx]
      simp [fanout_spec, List.dropLast]

/-- Claim C2: for every packet whose 4-byte header can be read and an
always-succeeding allocator, the dispatch forwards exactly to the
subscribers registered for the packet's PID, in registration order, every
delivery carrying the input bytes, all but the last as duplicates and the
last as the original buffer; an empty slot forwards nothing and reports no
error; the registry state is unchanged. -/
theorem claim_C2_dispatch (st : TsSplit) (p : List Nat) (h4 : 4 ≤ p.length) :
    upipe_ts_split_work (fun _ => true) st p =
      (st, WorkResult.done
        (fanout_spec (st.pids (ts_get_pid p)).outputs p) false) := by
  rw [upipe_ts_split_work, if_neg (by omega)]
  simp [fanout_all_dup_ok]

/-- Witness for claim C2 at the concrete state tsSplitThree (outputs 1, 2,
3 on slot 256) and the concrete packet packet290 with PID 256. -/
theorem claim_C2_dispatch_witness :
    upipe_ts_split_work (fun _ => true) tsSplitThree packet290 =
      (tsSplitThree, WorkResult.done
        (fanout_spec (tsSplitThree.pids (ts_get_pid packet290)).outputs
          packet290) false) :=
  claim_C2_dispatch tsSplitThree packet290 (by decide)

-- The fan-out when the k-th duplication attempt fails: the first k
-- subscribers have received duplicates, the loop stops with the error
-- thrown, and nobody receives the original.
theorem fanout_dup_failure (p : List Nat) (dupOk : Nat → Bool) :
    ∀ (subs : List Nat) (k idx : Nat),
      (∀ i, i < k → dupOk (idx + i) = true) → dupOk (idx + k) = false →
      k + 1 < subs.length →
      upipe_ts_split_fanout dupOk p subs idx
        = ((subs.take k).map (fun s => (s, Fwd.dup p)), true) := by
  intro subs
  induction subs with
  | nil =>
    intro k idx _ _ hlen
    exact absurd hlen (by simp)
  | cons s rest ih =>
    intro k idx hok hfail hlen
    cases rest with
    | nil =>
      exact absurd hlen (by simp)
    | cons s2 rest2 =>
      cases k with
      | zero =>
        have h0 : dupOk idx = false := by simpa using hfail
        rw [upipe_ts_split_fanout, if_neg (by simp [h0])]
        simp
      | succ k2 =>
        have h0 : dupOk idx = true := by simpa using hok 0 (Nat.succ_pos k2)
        rw [upipe_ts_split_fanout, if_pos h0]
        have ihx := ih k2 (idx + 1)
          (fun i hi => by
            have hx := hok (i + 1) (by omega)
            rw [show idx + 1 + i = idx + (i + 1) from by omega]
            exact hx)
          (by
            rw [show idx + 1 + k2 = idx + (k2 + 1) from by omega]
            exact hfail)
          (by simp only [List.length_cons] at hlen ⊢; omega)
        rw [ihx]
        simp

/-- Claim C7: when the k-th duplication (zero-based, with at least one
further subscriber after it) fails, dispatch delivers duplicates to the
first k subscribers only, stops there, throws the allocation error (the
original packet is freed, nobody receives it), and leaves the registry
state unchanged. -/
theorem claim_C7_dup_failure (st : TsSplit) (p : List Nat)
    (dupOk : Nat → Bool) (k : Nat) (h4 : 4 ≤ p.length)
    (hk : k + 1 < (st.pids (ts_get_pid p)).outputs.length)
    (hok : ∀ i, i < k → dupOk i = true) (hfail : dupOk k = false) :
    upipe_ts_split_work dupOk st p =
      (st, WorkResult.done
        (((st.pids (ts_get_pid p)).outputs.take k).map
          (fun s => (s, Fwd.dup p))) true) := by
  rw [upipe_ts_split_work, if_neg (by omega)]
  have hx := fanout_dup_failure p dupOk (st.pids (ts_get_pid p)).outputs k 0
    (fun i hi => by simpa using hok i hi) (by simpa using hfail) hk
  simp [hx]

/-- Witness for claim C7: with outputs 1, 2, 3 on slot 256, an allocator
whose second duplication fails delivers a duplicate to output 1 only and
throws the error. -/
theorem claim_C7_dup_failure_witness :
    upipe_ts_split_work (fun i => decide (i < 1)) tsSplitThree packet290 =
      (tsSplitThree, WorkResult.done
        (((tsSplitThree.pids (ts_get_pid packet290)).outputs.take 1).map
          (fun s => (s, Fwd.dup packet290))) true) :=
  claim_C7_dup_failure tsSplitThree packet290 (fun i => decide (i < 1)) 1
    (by decide) (by decide) (fun i hi => by simp [hi]) (by decide)

/-- Counterexample to claim C6 as stated: with output handle 7 registered
on slot 5 (state tsSplitOne), a set-flow-definition call requesting PID
9000 is rejected (returns false), yet the registry is mutated by the
rejected call: slot 5 no longer holds the subscriber, because the code
removes the previous registration before validating the new PID. -/
theorem claim_C6_counterexample :
    (upipe_ts_split_output_set_flow_def tsSplitOne 7 (some (some 5))
      (some 9000)).ok = false ∧
    ((upipe_ts_split_output_set_flow_def tsSplitOne 7 (some (some 5))
      (some 9000)).st.pids 5).outputs ≠ (tsSplitOne.pids 5).outputs := by
  decide

/-- Claim C6 as amended: a subscription with PID at least 8192 is rejected
(returns false) and leaves the subscriber with no stored flow definition;
the requested slot is not modified and the subscriber is added nowhere,
but the call is not free of registry mutation in general: the subscriber's
previous registration, if it had one with a PID, has already been removed
(with its attendant slot re-check and possible unset event) before the new
PID is validated; only when the subscriber had no prior PID registration
is the registry left completely unchanged and no event thrown. -/
theorem claim_C6_invalid_pid (st : TsSplit) (handle : Nat)
    (stored : Option (Option Nat)) (pid : Nat) (hpid : 8192 ≤ pid) :
    (upipe_ts_split_output_set_flow_def st handle stored (some pid)).ok
        = false ∧
    (upipe_ts_split_output_set_flow_def st handle stored (some pid)).stored
        = none ∧
    (∀ q, stored = some (some q) →
      (upipe_ts_split_output_set_flow_def st handle stored (some pid)).st
          = (upipe_ts_split_pid_unset st q handle).1 ∧
      (upipe_ts_split_output_set_flow_def st handle stored (some pid)).events
          = (upipe_ts_split_pid_unset st q handle).2) ∧
    ((stored = none ∨ stored = some none) →
      (upipe_ts_split_output_set_flow_def st handle stored (some pid)).st
          = st ∧
      (upipe_ts_split_output_set_flow_def st handle stored (some pid)).events
          = []) := by
  cases stored with
  | none => simp [upipe_ts_split_output_set_flow_def, hpid]
  | some o =>
    cases o with
    | none => simp [upipe_ts_split_output_set_flow_def, hpid]
    | some q0 => simp [upipe_ts_split_output_set_flow_def, hpid]

/-- Witness for claim C6 as amended, at the concrete state tsSplitOne with
the subscriber previously registered on slot 5 and requested PID 9000. -/
theorem claim_C6_invalid_pid_witness :
    8192 ≤ 9000 ∧
    (upipe_ts_split_output_set_flow_def tsSplitOne 7 (some (some 5))
      (some 9000)).ok = false ∧
    (upipe_ts_split_output_set_flow_def tsSplitOne 7 (some (some 5))
      (some 9000)).stored = none ∧
    (upipe_ts_split_output_set_flow_def tsSplitOne 7 (some (some 5))
      (some 9000)).st = (upipe_ts_split_pid_unset tsSplitOne 5 7).1 ∧
    (upipe_ts_split_output_set_flow_def tsSplitOne 7 (some (some 5))
      (some 9000)).events = (upipe_ts_split_pid_unset tsSplitOne 5 7).2 :=
  ⟨by decide,
   (claim_C6_invalid_pid tsSplitOne 7 (some (some 5)) 9000 (by decide)).1,
   (claim_C6_invalid_pid tsSplitOne 7 (some (some 5)) 9000 (by decide)).2.1,
   ((claim_C6_invalid_pid tsSplitOne 7 (some (some 5)) 9000
     (by decide)).2.2.1 5 rfl).1,
   ((claim_C6_invalid_pid tsSplitOne 7 (some (some 5)) 9000
     (by decide)).2.2.1 5 rfl).2⟩

/-- Claim C9: the demultiplexer never hands a data packet to the fan-out
while the ready flag is false; a flow definition that does not start with
the expected TS-block tag is dropped with a flow definition error and
clears the flag, after which every data packet is dropped with a flow
definition error, until a matching flow definition sets the flag again. -/
theorem claim_C9_ready_gate (dupOk : Nat → Bool) (st : TsSplit)
    (d : List Char) (p : List Nat) :
    (EXPECTED_FLOW_DEF.isPrefixOf d = false →
      upipe_ts_split_input dupOk st (TsInput.flowDef d)
        = ({ st with flow_def_ok := false }, InputResult.flowDefError)) ∧
    (EXPECTED_FLOW_DEF.isPrefixOf d = true →
      upipe_ts_split_input dupOk st (TsInput.flowDef d)
        = ({ st with flow_def_ok := true }, InputResult.flowDefAccepted)) ∧
    (st.flow_def_ok = false →
      upipe_ts_split_input dupOk st (TsInput.data (some p))
        = (st, InputResult.flowDefError)) ∧
    (∀ st2 r, upipe_ts_split_input dupOk st (TsInput.data (some p))
        = (st2, InputResult.worked r) → st.flow_def_ok = true) := by
  refine ⟨?_, ?_, ?_, ?_⟩
  · intro h
    simp [upipe_ts_split_input, h]
  · intro h
    simp [upipe_ts_split_input, h]
  · intro h
    simp [upipe_ts_split_input, h]
  · intro st2 r h
    cases hf : st.flow_def_ok with
    | true => rfl
    | false =>
      rw [upipe_ts_split_input] at h
      rw [if_pos hf] at h
      exact absurd h (by simp)

/-- Witness for claim C9 at the initial state: the flow definition foo is
rejected and clears the flag, a data packet in the initial (flag false)
state is dropped with a flow definition error, and the expected flow
definition is accepted and sets the flag. -/
theorem claim_C9_ready_gate_witness :
    upipe_ts_split_input (fun _ => true) tsSplitInit
        (TsInput.flowDef ['f', 'o', 'o'])
      = ({ tsSplitInit with flow_def_ok := false },
          InputResult.flowDefError) ∧
    upipe_ts_split_input (fun _ => true) tsSplitInit
        (TsInput.data (some packet290))
      = (tsSplitInit, InputResult.flowDefError) ∧
    upipe_ts_split_input (fun _ => true) tsSplitInit
        (TsInput.flowDef EXPECTED_FLOW_DEF)
      = ({ tsSplitInit with flow_def_ok := true },
          InputResult.flowDefAccepted) :=
  ⟨(claim_C9_ready_gate (fun _ => true) tsSplitInit ['f', 'o', 'o']
      packet290).1 (by decide),
   (claim_C9_ready_gate (fun _ => true) tsSplitInit ['f', 'o', 'o']
      packet290).2.2.1 (by decide),
   (claim_C9_ready_gate (fun _ => true) tsSplitInit EXPECTED_FLOW_DEF
      packet290).2.1 (by decide)⟩
